import Mathlib

/-!
Verification development for hgssh4, an SSH forced-command gateway that
mediates access to Mercurial repositories.  The definitions below are a
shallow embedding of src/hgssh4.py: the POSIX shell-word tokenizer used by
shlex.split, the command-shape check, the capability-table lookups, the
path resolution of os.path.abspath / os.path.expanduser, and the
top-level control flow of main together with the exit-code mapping of
the __main__ guard.
-/

namespace Hgssh4

/-! Named characters, to keep character handling explicit. -/

def chSpace : Char := Char.ofNat 32
def chTab : Char := Char.ofNat 9
def chLF : Char := Char.ofNat 10
def chCR : Char := Char.ofNat 13
def chSQ : Char := Char.ofNat 39
def chDQ : Char := Char.ofNat 34
def chBS : Char := Char.ofNat 92

/-! Tokenizer: shlex.split in POSIX mode with whitespace splitting, as used
at line 81 of the source.  Whitespace separates tokens; a backslash escapes
the next character; single quotes are fully literal; inside double quotes a
backslash escapes only the double quote and the backslash itself.  An
unterminated quote or a trailing escape raises ValueError in the source,
modelled by the two error values. -/

inductive ShErr
  | noClosing
  | noEscaped
deriving DecidableEq

inductive ShState
  | ws
  | word (cur : List Char)
  | sq (cur : List Char)
  | dq (cur : List Char)

def isShWS (c : Char) : Bool := c = chSpace ∨ c = chTab ∨ c = chCR ∨ c = chLF

def shlexRun : List Char → ShState → List String → Except ShErr (List String)
  | [], .ws, acc => .ok acc.reverse
  | [], .word cur, acc => .ok ((String.mk cur.reverse :: acc).reverse)
  | [], .sq _, _ => .error .noClosing
  | [], .dq _, _ => .error .noClosing
  | c :: rest, .ws, acc =>
    if isShWS c then shlexRun rest .ws acc
    else if c = chBS then
      match rest with
      | [] => .error .noEscaped
      | d :: rest2 => shlexRun rest2 (.word [d]) acc
    else if c = chSQ then shlexRun rest (.sq []) acc
    else if c = chDQ then shlexRun rest (.dq []) acc
    else shlexRun rest (.word [c]) acc
  | c :: rest, .word cur, acc =>
    if isShWS c then shlexRun rest .ws (String.mk cur.reverse :: acc)
    else if c = chBS then
      match rest with
      | [] => .error .noEscaped
      | d :: rest2 => shlexRun rest2 (.word (d :: cur)) acc
    else if c = chSQ then shlexRun rest (.sq cur) acc
    else if c = chDQ then shlexRun rest (.dq cur) acc
    else shlexRun rest (.word (c :: cur)) acc
  | c :: rest, .sq cur, acc =>
    if c = chSQ then shlexRun rest (.word cur) acc
    else shlexRun rest (.sq (c :: cur)) acc
  | c :: rest, .dq cur, acc =>
    if c = chDQ then shlexRun rest (.word cur) acc
    else if c = chBS then
      match rest with
      | [] => .error .noEscaped
      | d :: rest2 =>
        if d = chDQ ∨ d = chBS then shlexRun rest2 (.dq (d :: cur)) acc
        else shlexRun rest2 (.dq (d :: chBS :: cur)) acc
    else shlexRun rest (.dq (c :: cur)) acc

def shlexSplit (s : String) : Except ShErr (List String) :=
  shlexRun s.toList .ws []

/-! Command-shape check, lines 83-84 of the source:
cmdargv[:2] == ["hg", "-R"] and cmdargv[3:] == ["serve", "--stdio"]. -/

def checkShape (argv : List String) : Bool :=
  argv.take 2 == ["hg", "-R"] && argv.drop 3 == ["serve", "--stdio"]

/-! Line 87: cmdargv[2].replace(os.sep, d, 1) with d empty removes the first
occurrence of the separator character, wherever it occurs in the string. -/

def removeFirst (c : Char) : List Char → List Char
  | [] => []
  | x :: xs => if x = c then xs else x :: removeFirst c xs

def pyReplaceFirstSep (s : String) : String :=
  String.mk (removeFirst '/' s.toList)

/-! Path resolution, line 96: os.path.abspath(os.path.expanduser(repo_path)),
modelled character-for-character after posixpath.expanduser, posixpath.join
and posixpath.normpath. -/

def startsSlash : List Char → Bool
  | c :: _ => c = '/'
  | [] => false

def lastIsSlash (cs : List Char) : Bool := cs.getLast? == some '/'

def splitSlash : List Char → List (List Char)
  | [] => [[]]
  | c :: rest =>
    let r := splitSlash rest
    if c = '/' then [] :: r
    else
      match r with
      | [] => [[c]]
      | h :: t => (c :: h) :: t

def joinSlash : List (List Char) → List Char
  | [] => []
  | [x] => x
  | x :: xs => x ++ '/' :: joinSlash xs

def normStep (initial : Nat) (acc : List (List Char)) (comp : List Char) :
    List (List Char) :=
  if comp = [] ∨ comp = ['.'] then acc
  else if comp ≠ ['.', '.'] ∨ (initial = 0 ∧ acc = []) ∨ acc.headD [] = ['.', '.'] then
    comp :: acc
  else acc.tail

def normpathChars (cs : List Char) : List Char :=
  if cs = [] then ['.']
  else
    let initial : Nat :=
      if cs.take 2 = ['/', '/'] ∧ ¬ cs.take 3 = ['/', '/', '/'] then 2
      else if startsSlash cs then 1
      else 0
    let newComps := (List.foldl (normStep initial) [] (splitSlash cs)).reverse
    let res := List.replicate initial '/' ++ joinSlash newComps
    if res = [] then ['.'] else res

def joinChars (a b : List Char) : List Char :=
  if startsSlash b then b
  else if a = [] ∨ lastIsSlash a then a ++ b
  else a ++ '/' :: b

def abspathChars (cwd cs : List Char) : List Char :=
  if startsSlash cs then normpathChars cs
  else normpathChars (joinChars cwd cs)

def rstripSlashChars (cs : List Char) : List Char :=
  (cs.reverse.dropWhile (fun c => c = '/')).reverse

/-! Process environment of one gateway invocation: the untrusted
SSH_ORIGINAL_COMMAND variable (absent means os.getenv falls back to the
placeholder), the current working directory, the home directory of the
invoking user (HOME or its password-database fallback, absent when neither
resolves) and the password-database home directories of named users. -/

structure Env where
  sshOriginalCommand : Option String
  cwd : String
  home : Option String
  userHome : String → Option String

def expanduserChars (env : Env) (cs : List Char) : List Char :=
  if cs.take 1 = ['~'] then
    let i := cs.findIdx (fun c => c = '/')
    let userpart := (cs.take i).drop 1
    let uh? := if userpart = [] then env.home else env.userHome (String.mk userpart)
    match uh? with
    | none => cs
    | some uh =>
      let res := rstripSlashChars uh.toList ++ cs.drop i
      if res = [] then ['/'] else res
  else cs

def expanduser (env : Env) (p : String) : String :=
  String.mk (expanduserChars env p.toList)

def abspath (env : Env) (p : String) : String :=
  String.mk (abspathChars env.cwd.toList p.toList)

def resolveLocation (env : Env) (loc : String) : String :=
  abspath env (expanduser env loc)

/-! Capability table: the loaded ConfigParser state.  Section names are
looked up verbatim; option keys are stored and looked up through the
default optionxform, which lowercases them. -/

abbrev Sect := List (String × String)

structure Config where
  sections : List (String × Sect)

def Config.getSection? (c : Config) (name : String) : Option Sect :=
  c.sections.lookup name

def pyLower (s : String) : String :=
  String.mk (s.toList.map Char.toLower)

def sectGet? (s : Sect) (key : String) : Option String :=
  s.lookup (pyLower key)

def readonlySudo (cfg : Config) : Option String :=
  match Config.getSection? cfg "readonly" with
  | none => none
  | some ro => sectGet? ro "sudo"

/-! Error taxonomy: each constructor is one raise site of main, plus the
two tokenizer failures propagating out of shlex.split. -/

inductive Err
  | tokenize (e : ShErr)
  | illegalCommand (argv : List String)
  | noSuchRepository
  | badConfigNoLocation
  | accessDenied
  | badConfigNoSudoUser
deriving DecidableEq

/-! Rendering of the error messages printed by the __main__ handler.
The illegal-command message interpolates the Python repr of the token
list. -/

def hexDigit (n : Nat) : Char :=
  if n < 10 then Char.ofNat (48 + n) else Char.ofNat (87 + n)

def toHex2 (n : Nat) : String :=
  String.mk [hexDigit (n / 16 % 16), hexDigit (n % 16)]

def pyCharEscape (q c : Char) : String :=
  if c = chBS then String.mk [chBS, chBS]
  else if c = q then String.mk [chBS, q]
  else if c = chLF then String.mk [chBS, 'n']
  else if c = chCR then String.mk [chBS, 'r']
  else if c = chTab then String.mk [chBS, 't']
  else if c.toNat < 32 ∨ c.toNat = 127 then String.mk [chBS, 'x'] ++ toHex2 c.toNat
  else String.mk [c]

def pyStrRepr (s : String) : String :=
  let q := if s.toList.contains chSQ ∧ ¬ s.toList.contains chDQ then chDQ else chSQ
  String.mk [q] ++ String.join (s.toList.map (pyCharEscape q)) ++ String.mk [q]

def pyListRepr (l : List String) : String :=
  "[" ++ String.intercalate ", " (l.map pyStrRepr) ++ "]"

def errMessage : Err → String
  | .tokenize .noClosing => "No closing quotation"
  | .tokenize .noEscaped => "No escaped character"
  | .illegalCommand argv => "Illegal command " ++ pyListRepr argv
  | .noSuchRepository => "No such repository"
  | .badConfigNoLocation => "Bad config: no location for repository"
  | .accessDenied => "Access denied"
  | .badConfigNoSudoUser => "Bad config: no readonly sudo user"

/-! The body of main (lines 79-117): either an error raised before the
executor stage, or the argument vector handed to subprocess.run. -/

/-- Resolution and command construction, lines 87-112 of the source.  In the
source the location is resolved to repo_path at line 96, before the grant
lookup at line 99; both steps are pure string computations, so inlining the
resolved path at its use sites below is behavior-preserving. -/
def resolveAndBuild (cfg : Config) (user : String) (env : Env) (tok : String) :
    Except Err (List String) :=
  match Config.getSection? cfg ("repos." ++ pyReplaceFirstSep tok) with
  | none => .error .noSuchRepository
  | some repoConf =>
    match sectGet? repoConf "location" with
    | none => .error .badConfigNoLocation
    | some loc =>
      match sectGet? repoConf user with
      | none => .error .accessDenied
      | some access =>
        if access = "read" ∨ access = "write" then
          if access = "read" then
            match readonlySudo cfg with
            | none => .error .badConfigNoSudoUser
            | some sudoUser =>
              .ok (["sudo", "--user=" ++ sudoUser, "--"] ++
                   ["hg", "-R", resolveLocation env loc, "serve", "--stdio"])
          else .ok ["hg", "-R", resolveLocation env loc, "serve", "--stdio"]
        else .error .accessDenied

def mainRun (cfg : Config) (user : String) (env : Env) : Except Err (List String) :=
  match shlexSplit (env.sshOriginalCommand.getD "?") with
  | .error e => .error (.tokenize e)
  | .ok cmdargv =>
    if checkShape cmdargv then resolveAndBuild cfg user env (cmdargv.getD 2 "")
    else .error (.illegalCommand cmdargv)

def spawnedCmd (cfg : Config) (user : String) (env : Env) : Option (List String) :=
  (mainRun cfg user env).toOption

/-! Outcome of the subprocess.run call: either the spawn itself raises
(e.g. the binary is missing), or the child runs to termination with some
return code (negative return codes stand for signal termination).  The
__main__ guard (lines 119-124) prints any exception and exits 1; a main
that returns normally exits 0.  main ignores the CompletedProcess value,
so the child's return code never influences the gateway's exit status. -/

inductive RunOutcome
  | spawnError
  | completed (returncode : Int)

def gatewayExit (cfg : Config) (user : String) (env : Env) (out : RunOutcome) : Nat :=
  match mainRun cfg user env with
  | .error _ => 1
  | .ok _ =>
    match out with
    | .spawnError => 1
    | .completed _ => 0

def errorOutcome (cfg : Config) (user : String) (env : Env) : Option (String × Nat) :=
  match mainRun cfg user env with
  | .error e => some (errMessage e, 1)
  | .ok _ => none

/-! Concrete data for witnesses. -/

def sampleUserHome : String → Option String := fun _ => none

def envFor (cmd : String) : Env :=
  { sshOriginalCommand := some cmd
    cwd := "/home/hg"
    home := some "/home/hg"
    userHome := sampleUserHome }

def envNoCmd : Env :=
  { sshOriginalCommand := none
    cwd := "/home/hg"
    home := some "/home/hg"
    userHome := sampleUserHome }

def cfgMain : Config :=
  { sections :=
      [("repos.r",
        [("location", "/srv/r"), ("alice", "write"), ("bob", "read"),
         ("carol", "admin")]),
       ("readonly", [("sudo", "hgread")])] }

def cfgNoSudo : Config :=
  { sections := [("repos.r", [("location", "/srv/r"), ("bob", "read")])] }

def cfgAB : Config :=
  { sections := [("repos.ab", [("location", "/x"), ("alice", "write")])] }

/-! Helper lemmas. -/

theorem checkShape_iff (argv : List String) :
    checkShape argv = true ↔ ∃ r, argv = ["hg", "-R", r, "serve", "--stdio"] := by
  constructor
  · intro h
    simp only [checkShape, Bool.and_eq_true, beq_iff_eq] at h
    obtain ⟨h1, h2⟩ := h
    rcases argv with _ | ⟨a, _ | ⟨b, _ | ⟨c, _ | ⟨d, _ | ⟨e, rest⟩⟩⟩⟩⟩
    · simp at h1
    · simp [List.take] at h1
    · simp [List.drop] at h2
    · simp [List.drop] at h2
    · simp [List.drop] at h2
    · simp only [List.take, List.drop, List.cons.injEq, and_true] at h1 h2
      obtain ⟨rfl, rfl, -⟩ := h1
      obtain ⟨rfl, rfl, rfl⟩ := h2
      exact ⟨c, rfl⟩
  · rintro ⟨r, rfl⟩
    rfl

theorem mainRun_validated (cfg : Config) (user : String) (env : Env) (raw tok : String)
    (henv : env.sshOriginalCommand = some raw)
    (hs : shlexSplit raw = .ok ["hg", "-R", tok, "serve", "--stdio"]) :
    mainRun cfg user env = resolveAndBuild cfg user env tok := by
  unfold mainRun
  rw [henv, Option.getD_some, hs]
  simp [checkShape, List.getD]

theorem startsSlash_append (a b : List Char) (h : startsSlash a = true) :
    startsSlash (a ++ b) = true := by
  rcases a with _ | ⟨c, tl⟩
  · simp [startsSlash] at h
  · simpa [startsSlash] using h

theorem normpathChars_absolute (cs : List Char) (h : startsSlash cs = true) :
    startsSlash (normpathChars cs) = true := by
  rcases cs with _ | ⟨c, tl⟩
  · simp [startsSlash] at h
  · have hc : c = '/' := by simpa [startsSlash] using h
    subst hc
    unfold normpathChars
    by_cases h2 : ('/' :: tl).take 2 = ['/', '/'] ∧ ¬ ('/' :: tl).take 3 = ['/', '/', '/']
    · simp only [if_neg (by simp : ¬ ('/' :: tl) = []), if_pos h2]
      rcases hres : List.replicate 2 '/' ++
          joinSlash ((List.foldl (normStep 2) [] (splitSlash ('/' :: tl))).reverse) with
          _ | ⟨x, xs⟩
      · simp [List.replicate] at hres
      · have hx : x = '/' := by
          have := hres
          simp [List.replicate] at this
          exact this.1.symm
        simp [hres, hx, startsSlash]
    · simp only [if_neg (by simp : ¬ ('/' :: tl) = []), if_neg h2, startsSlash,
        decide_eq_true_eq, if_pos rfl, if_true]
      rcases hres : List.replicate 1 '/' ++
          joinSlash ((List.foldl (normStep 1) [] (splitSlash ('/' :: tl))).reverse) with
          _ | ⟨x, xs⟩
      · simp [List.replicate] at hres
      · have hx : x = '/' := by
          have := hres
          simp [List.replicate] at this
          exact this.1.symm
        simp [hres, hx, startsSlash]

theorem abspathChars_absolute (cwd cs : List Char) (h : startsSlash cwd = true) :
    startsSlash (abspathChars cwd cs) = true := by
  unfold abspathChars
  by_cases hc : startsSlash cs = true
  · simpa [hc] using normpathChars_absolute cs hc
  · have hcf : startsSlash cs = false := by simpa using hc
    rw [if_neg (by simp [hcf])]
    apply normpathChars_absolute
    unfold joinChars
    rw [if_neg (by simp [hcf])]
    by_cases h2 : cwd = [] ∨ lastIsSlash cwd
    · rw [if_pos h2]
      exact startsSlash_append cwd cs h
    · rw [if_neg h2]
      exact startsSlash_append cwd ('/' :: cs) h

theorem resolveLocation_absolute (env : Env) (loc : String)
    (h : startsSlash env.cwd.toList = true) :
    startsSlash (resolveLocation env loc).toList = true :=
  abspathChars_absolute env.cwd.toList (expanduserChars env loc.toList) h

theorem removeFirst_not_mem (c : Char) (l : List Char) (h : c ∉ l) :
    removeFirst c l = l := by
  induction l with
  | nil => rfl
  | cons x xs ih =>
    simp only [List.mem_cons, not_or] at h
    have hxc : ¬ x = c := fun hx => h.1 hx.symm
    simp only [removeFirst, if_neg hxc]
    rw [ih h.2]

theorem removeFirst_first (c : Char) (pre post : List Char) (h : c ∉ pre) :
    removeFirst c (pre ++ c :: post) = pre ++ post := by
  induction pre with
  | nil => simp [removeFirst]
  | cons x xs ih =>
    simp only [List.mem_cons, not_or] at h
    have hxc : ¬ x = c := fun hx => h.1 hx.symm
    simp only [List.cons_append, removeFirst, if_neg hxc]
    exact congrArg (List.cons x) (ih h.2)

/-! Claim theorems. -/

/-- C1: for every raw command string, the validator accepts exactly when its
shell-word-split token sequence is the five tokens hg, -R, some repository
token, serve, --stdio with the literals in positions 0, 1, 3, 4; on any
deviation main raises the illegal-command error and no child process is
spawned. -/
theorem C1_validator_accepts_exact_shape (cfg : Config) (user : String) (env : Env)
    (raw : String) (argv : List String)
    (henv : env.sshOriginalCommand = some raw)
    (hs : shlexSplit raw = .ok argv) :
    (checkShape argv = true ↔ ∃ r, argv = ["hg", "-R", r, "serve", "--stdio"]) ∧
    (checkShape argv = false →
      mainRun cfg user env = .error (Err.illegalCommand argv) ∧
      spawnedCmd cfg user env = none) := by
  refine ⟨checkShape_iff argv, fun hf => ?_⟩
  have hmain : mainRun cfg user env = .error (Err.illegalCommand argv) := by
    unfold mainRun
    rw [henv, Option.getD_some, hs]
    simp [hf]
  exact ⟨hmain, by simp [spawnedCmd, hmain, Except.toOption]⟩

theorem C1_witness :
    mainRun cfgMain "alice" (envFor "rm -rf /") =
      .error (Err.illegalCommand ["rm", "-rf", "/"]) :=
  ((C1_validator_accepts_exact_shape cfgMain "alice" (envFor "rm -rf /") "rm -rf /"
      ["rm", "-rf", "/"] rfl rfl).2 rfl).1

/-- C2 counterexample: the token a/b has no leading path separator, yet the
lookup key becomes ab, because line 87 removes the first separator occurrence
wherever it appears; with a table entry for ab the invocation succeeds under
the altered key. -/
theorem C2_cex :
    startsSlash "a/b".toList = false ∧
    pyReplaceFirstSep "a/b" ≠ "a/b" ∧
    pyReplaceFirstSep "a/b" = "ab" ∧
    mainRun cfgAB "alice" (envFor "hg -R a/b serve --stdio") =
      .ok ["hg", "-R", "/x", "serve", "--stdio"] :=
  ⟨rfl, by decide, rfl, rfl⟩

/-- C2 amended: the lookup key is the repository token with the first
occurrence of the path-separator character removed, wherever in the token it
occurs (a leading separator, when present, is that first occurrence); a token
containing no separator at all is used unchanged; and the capability table is
consulted under exactly that key. -/
theorem C2_amended_first_separator_removed (tok : String) :
    (('/' ∉ tok.toList) → pyReplaceFirstSep tok = tok) ∧
    (∀ pre post : List Char, tok.toList = pre ++ '/' :: post → '/' ∉ pre →
      (pyReplaceFirstSep tok).toList = pre ++ post) ∧
    (∀ (cfg : Config) (user : String) (env : Env) (raw : String),
      env.sshOriginalCommand = some raw →
      shlexSplit raw = .ok ["hg", "-R", tok, "serve", "--stdio"] →
      Config.getSection? cfg ("repos." ++ pyReplaceFirstSep tok) = none →
      mainRun cfg user env = .error Err.noSuchRepository) := by
  refine ⟨fun h => ?_, fun pre post hsplit hpre => ?_, ?_⟩
  · rcases tok with ⟨dat⟩
    unfold pyReplaceFirstSep
    rw [removeFirst_not_mem '/' _ h]
    rfl
  · unfold pyReplaceFirstSep
    show removeFirst '/' tok.toList = pre ++ post
    rw [hsplit, removeFirst_first '/' pre post hpre]
  · intro cfg user env raw henv hs hnone
    rw [mainRun_validated cfg user env raw tok henv hs]
    unfold resolveAndBuild
    rw [hnone]

theorem C2_amended_witness :
    (pyReplaceFirstSep "a/b").toList = ['a'] ++ ['b'] :=
  (C2_amended_first_separator_removed "a/b").2.1 ['a'] ['b'] rfl (by decide)

/-- C3 counterexample: an invocation that reaches the executor and whose
wrapped process exits with the non-zero status 2 still gives gateway exit
status 0, because main discards the CompletedProcess returned by
subprocess.run and the __main__ guard exits 0 on normal return. -/
theorem C3_cex :
    mainRun cfgMain "alice" (envFor "hg -R r serve --stdio") =
      .ok ["hg", "-R", "/srv/r", "serve", "--stdio"] ∧
    (2 : Int) ≠ 0 ∧
    gatewayExit cfgMain "alice" (envFor "hg -R r serve --stdio")
      (RunOutcome.completed 2) = 0 :=
  ⟨rfl, by decide, rfl⟩

/-- C3 amended: for every invocation that reaches the executor stage, the
gateway exits 0 whenever the wrapped process was spawned and ran to
termination, regardless of the wrapped process exit status (including
non-zero exits and signal terminations); the gateway exits 1 only when the
spawn itself raises an exception. -/
theorem C3_amended_exit_ignores_child_status (cfg : Config) (user : String)
    (env : Env) (cmd : List String)
    (h : mainRun cfg user env = .ok cmd) :
    (∀ code : Int, gatewayExit cfg user env (RunOutcome.completed code) = 0) ∧
    gatewayExit cfg user env RunOutcome.spawnError = 1 := by
  exact ⟨fun code => by simp [gatewayExit, h], by simp [gatewayExit, h]⟩

theorem C3_amended_witness :
    gatewayExit cfgMain "alice" (envFor "hg -R r serve --stdio")
      (RunOutcome.completed 255) = 0 :=
  (C3_amended_exit_ignores_child_status cfgMain "alice"
      (envFor "hg -R r serve --stdio") ["hg", "-R", "/srv/r", "serve", "--stdio"]
      rfl).1 255

/-- C4 counterexample: a nonexistent-repository invocation and an existing
repository without a grant both exit 1, but the lines printed on the error
stream differ, so the caller-visible outcomes are not identical and the two
denial causes are distinguishable. -/
theorem C4_cex :
    errorOutcome cfgMain "alice" (envFor "hg -R nope serve --stdio") =
      some ("No such repository", 1) ∧
    errorOutcome cfgMain "dave" (envFor "hg -R r serve --stdio") =
      some ("Access denied", 1) ∧
    ("No such repository" : String) ≠ "Access denied" :=
  ⟨rfl, rfl, by decide⟩

/-- C4 amended: for any two invocations with the same validated command
shape, one failing with NoSuchRepository and one with AccessDenied, the exit
status is the same uniform 1 for both, but the error-stream messages are the
distinct fixed strings No such repository and Access denied, so the
caller-visible error stream does distinguish the two denial causes. -/
theorem C4_amended_same_exit_distinct_message (c1 : Config) (u1 : String) (e1 : Env)
    (c2 : Config) (u2 : String) (e2 : Env)
    (h1 : mainRun c1 u1 e1 = .error Err.noSuchRepository)
    (h2 : mainRun c2 u2 e2 = .error Err.accessDenied) :
    errorOutcome c1 u1 e1 = some ("No such repository", 1) ∧
    errorOutcome c2 u2 e2 = some ("Access denied", 1) ∧
    (∀ out, gatewayExit c1 u1 e1 out = gatewayExit c2 u2 e2 out) ∧
    errMessage Err.noSuchRepository ≠ errMessage Err.accessDenied := by
  refine ⟨by simp [errorOutcome, h1, errMessage],
    by simp [errorOutcome, h2, errMessage],
    fun out => by simp [gatewayExit, h1, h2],
    by decide⟩

theorem C4_amended_witness :
    errorOutcome cfgMain "alice" (envFor "hg -R nope serve --stdio") =
      some ("No such repository", 1) ∧
    errorOutcome cfgMain "dave" (envFor "hg -R r serve --stdio") =
      some ("Access denied", 1) :=
  ⟨(C4_amended_same_exit_distinct_message cfgMain "alice"
      (envFor "hg -R nope serve --stdio") cfgMain "dave"
      (envFor "hg -R r serve --stdio") rfl rfl).1,
   (C4_amended_same_exit_distinct_message cfgMain "alice"
      (envFor "hg -R nope serve --stdio") cfgMain "dave"
      (envFor "hg -R r serve --stdio") rfl rfl).2.1⟩

/-- C5: when the grant value for the matched repository and identity is any
string other than read or write, resolution fails with the access-denied
error and no child process is spawned. -/
theorem C5_unrecognized_grant_denied (cfg : Config) (user : String) (env : Env)
    (raw tok loc v : String) (repoConf : Sect)
    (henv : env.sshOriginalCommand = some raw)
    (hs : shlexSplit raw = .ok ["hg", "-R", tok, "serve", "--stdio"])
    (hsec : Config.getSection? cfg ("repos." ++ pyReplaceFirstSep tok) = some repoConf)
    (hloc : sectGet? repoConf "location" = some loc)
    (hacc : sectGet? repoConf user = some v)
    (hv1 : v ≠ "read") (hv2 : v ≠ "write") :
    mainRun cfg user env = .error Err.accessDenied ∧
    spawnedCmd cfg user env = none := by
  have hmain : mainRun cfg user env = .error Err.accessDenied := by
    rw [mainRun_validated cfg user env raw tok henv hs]
    unfold resolveAndBuild
    simp only [hsec, hloc, hacc]
    simp [hv1, hv2]
  exact ⟨hmain, by simp [spawnedCmd, hmain, Except.toOption]⟩

theorem C5_witness :
    mainRun cfgMain "carol" (envFor "hg -R r serve --stdio") =
      .error Err.accessDenied ∧
    spawnedCmd cfgMain "carol" (envFor "hg -R r serve --stdio") = none :=
  C5_unrecognized_grant_denied cfgMain "carol" (envFor "hg -R r serve --stdio")
    "hg -R r serve --stdio" "r" "/srv/r" "admin"
    [("location", "/srv/r"), ("alice", "write"), ("bob", "read"), ("carol", "admin")]
    rfl rfl rfl rfl rfl (by decide) (by decide)

/-- C6: a read grant with no configured read-only impersonation identity
fails with the bad-config error and no child process is spawned; there is no
fallback to direct full-privilege execution. -/
theorem C6_read_without_sudo_bad_config (cfg : Config) (user : String) (env : Env)
    (raw tok loc : String) (repoConf : Sect)
    (henv : env.sshOriginalCommand = some raw)
    (hs : shlexSplit raw = .ok ["hg", "-R", tok, "serve", "--stdio"])
    (hsec : Config.getSection? cfg ("repos." ++ pyReplaceFirstSep tok) = some repoConf)
    (hloc : sectGet? repoConf "location" = some loc)
    (hacc : sectGet? repoConf user = some "read")
    (hsudo : readonlySudo cfg = none) :
    mainRun cfg user env = .error Err.badConfigNoSudoUser ∧
    spawnedCmd cfg user env = none := by
  have hmain : mainRun cfg user env = .error Err.badConfigNoSudoUser := by
    rw [mainRun_validated cfg user env raw tok henv hs]
    unfold resolveAndBuild
    simp only [hsec, hloc, hacc]
    simp [hsudo]
  exact ⟨hmain, by simp [spawnedCmd, hmain, Except.toOption]⟩

theorem C6_witness :
    mainRun cfgNoSudo "bob" (envFor "hg -R r serve --stdio") =
      .error Err.badConfigNoSudoUser ∧
    spawnedCmd cfgNoSudo "bob" (envFor "hg -R r serve --stdio") = none :=
  C6_read_without_sudo_bad_config cfgNoSudo "bob" (envFor "hg -R r serve --stdio")
    "hg -R r serve --stdio" "r" "/srv/r"
    [("location", "/srv/r"), ("bob", "read")]
    rfl rfl rfl rfl rfl rfl

/-- C7: a read grant with configured impersonation identity u and resolved
repository path p executes exactly sudo --user=u -- hg -R p serve --stdio,
with the end-of-options marker immediately before the wrapped command. -/
theorem C7_read_exec_vector (cfg : Config) (user : String) (env : Env)
    (raw tok loc u : String) (repoConf : Sect)
    (henv : env.sshOriginalCommand = some raw)
    (hs : shlexSplit raw = .ok ["hg", "-R", tok, "serve", "--stdio"])
    (hsec : Config.getSection? cfg ("repos." ++ pyReplaceFirstSep tok) = some repoConf)
    (hloc : sectGet? repoConf "location" = some loc)
    (hacc : sectGet? repoConf user = some "read")
    (hsudo : readonlySudo cfg = some u) :
    mainRun cfg user env =
      .ok ["sudo", "--user=" ++ u, "--",
           "hg", "-R", resolveLocation env loc, "serve", "--stdio"] := by
  rw [mainRun_validated cfg user env raw tok henv hs]
  unfold resolveAndBuild
  simp only [hsec, hloc, hacc]
  simp [hsudo]

theorem C7_witness :
    mainRun cfgMain "bob" (envFor "hg -R r serve --stdio") =
      .ok ["sudo", "--user=hgread", "--",
           "hg", "-R", "/srv/r", "serve", "--stdio"] := by
  rw [C7_read_exec_vector cfgMain "bob" (envFor "hg -R r serve --stdio")
    "hg -R r serve --stdio" "r" "/srv/r" "hgread"
    [("location", "/srv/r"), ("alice", "write"), ("bob", "read"), ("carol", "admin")]
    rfl rfl rfl rfl rfl rfl]
  rfl

/-- C8: a write grant executes exactly hg -R p serve --stdio with no
impersonation wrapper, where p is the configured location passed through
home-directory expansion and absolute-path resolution against the process
working directory; when the working directory is absolute, p is absolute. -/
theorem C8_write_exec_vector (cfg : Config) (user : String) (env : Env)
    (raw tok loc : String) (repoConf : Sect)
    (henv : env.sshOriginalCommand = some raw)
    (hs : shlexSplit raw = .ok ["hg", "-R", tok, "serve", "--stdio"])
    (hsec : Config.getSection? cfg ("repos." ++ pyReplaceFirstSep tok) = some repoConf)
    (hloc : sectGet? repoConf "location" = some loc)
    (hacc : sectGet? repoConf user = some "write") :
    mainRun cfg user env =
      .ok ["hg", "-R", abspath env (expanduser env loc), "serve", "--stdio"] ∧
    (startsSlash env.cwd.toList = true →
      startsSlash (resolveLocation env loc).toList = true) := by
  constructor
  · rw [mainRun_validated cfg user env raw tok henv hs]
    unfold resolveAndBuild
    simp only [hsec, hloc, hacc]
    simp [resolveLocation]
  · exact resolveLocation_absolute env loc

theorem C8_witness :
    mainRun cfgMain "alice" (envFor "hg -R r serve --stdio") =
      .ok ["hg", "-R", "/srv/r", "serve", "--stdio"] ∧
    startsSlash (resolveLocation (envFor "hg -R r serve --stdio") "/srv/r").toList
      = true := by
  have h := C8_write_exec_vector cfgMain "alice" (envFor "hg -R r serve --stdio")
    "hg -R r serve --stdio" "r" "/srv/r"
    [("location", "/srv/r"), ("alice", "write"), ("bob", "read"), ("carol", "admin")]
    rfl rfl rfl rfl rfl
  exact ⟨by rw [h.1]; rfl, h.2 rfl⟩

/-- C9: when SSH_ORIGINAL_COMMAND is absent the gateway substitutes the
placeholder string, which fails the shape check, so the invocation is always
rejected as an illegal command with exit status 1 and no process spawned. -/
theorem C9_missing_env_fails_closed (cfg : Config) (user : String) (env : Env)
    (henv : env.sshOriginalCommand = none) :
    checkShape ["?"] = false ∧
    mainRun cfg user env = .error (Err.illegalCommand ["?"]) ∧
    spawnedCmd cfg user env = none ∧
    ∀ out, gatewayExit cfg user env out = 1 := by
  have hmain : mainRun cfg user env = .error (Err.illegalCommand ["?"]) := by
    unfold mainRun
    rw [henv]
    rfl
  refine ⟨rfl, hmain, by simp [spawnedCmd, hmain, Except.toOption],
    fun out => by simp [gatewayExit, hmain]⟩

theorem C9_witness :
    mainRun cfgMain "alice" envNoCmd = .error (Err.illegalCommand ["?"]) ∧
    gatewayExit cfgMain "alice" envNoCmd RunOutcome.spawnError = 1 :=
  ⟨(C9_missing_env_fails_closed cfgMain "alice" envNoCmd rfl).2.1,
   (C9_missing_env_fails_closed cfgMain "alice" envNoCmd rfl).2.2.2
     RunOutcome.spawnError⟩

/-- C10: when the raw command string cannot be tokenized, the gateway fails
with the tokenizer error, which is distinct from the illegal-command
rejection of the shape check, with exit status 1 and no process spawned. -/
theorem C10_tokenizer_failure_fails_closed (cfg : Config) (user : String) (env : Env)
    (raw : String) (e : ShErr)
    (henv : env.sshOriginalCommand = some raw)
    (hs : shlexSplit raw = .error e) :
    mainRun cfg user env = .error (Err.tokenize e) ∧
    spawnedCmd cfg user env = none ∧
    (∀ argv, Err.tokenize e ≠ Err.illegalCommand argv) ∧
    ∀ out, gatewayExit cfg user env out = 1 := by
  have hmain : mainRun cfg user env = .error (Err.tokenize e) := by
    unfold mainRun
    rw [henv, Option.getD_some, hs]
  refine ⟨hmain, by simp [spawnedCmd, hmain, Except.toOption],
    fun argv => by simp,
    fun out => by simp [gatewayExit, hmain]⟩

theorem C10_witness :
    mainRun cfgMain "alice" (envFor "\"abc") = .error (Err.tokenize ShErr.noClosing) ∧
    gatewayExit cfgMain "alice" (envFor "\"abc") RunOutcome.spawnError = 1 :=
  ⟨(C10_tokenizer_failure_fails_closed cfgMain "alice" (envFor "\"abc")
      "\"abc" ShErr.noClosing rfl rfl).1,
   (C10_tokenizer_failure_fails_closed cfgMain "alice" (envFor "\"abc")
      "\"abc" ShErr.noClosing rfl rfl).2.2.2 RunOutcome.spawnError⟩

end Hgssh4
